import Mathlib

/-!
Shallow embedding of the payment server (model.go, server.go): the Payment
record structure, the lifecycle-manager functions over a document store, and
the HTTP dispatcher's status-code mapping.  The document store itself
(a MongoDB collection accessed through the mgo driver) is external to the
repository; it is modelled from the spec's store-collaborator contract (§6):
find/count/insert/update/remove keyed on the string identifier, each failing
exactly when the underlying connection or query fails.
-/

set_option autoImplicit false

namespace PaymentServer

/-- Element of the sender_charges array inside ChargesInformation. -/
structure Charge where
  Amount : String
  Currency : String
deriving DecidableEq, Inhabited

/-- The beneficiary_party nested structure of Payment.Attributes. -/
structure BeneficiaryParty where
  AccountName : String
  AccountNumber : String
  AccountNumberCode : String
  AccountType : Int
  Address : String
  BankID : String
  BankIDCode : String
  Name : String
deriving DecidableEq, Inhabited

/-- The charges_information nested structure of Payment.Attributes. -/
structure ChargesInf where
  BearerCode : String
  SenderCharges : List Charge
  ReceiverChargesAmount : String
  ReceiverChargesCurrency : String
deriving DecidableEq, Inhabited

/-- The debtor_party nested structure of Payment.Attributes. -/
structure DebtorParty where
  AccountName : String
  AccountNumber : String
  AccountNumberCode : String
  Address : String
  BankID : String
  BankIDCode : String
  Name : String
deriving DecidableEq, Inhabited

/-- The fx nested structure of Payment.Attributes. -/
structure Fx where
  ContractReference : String
  ExchangeRate : String
  OriginalAmount : String
  OriginalCurrency : String
deriving DecidableEq, Inhabited

/-- The sponsor_party nested structure of Payment.Attributes. -/
structure SponsorParty where
  AccountNumber : String
  BankID : String
  BankIDCode : String
deriving DecidableEq, Inhabited

/-- The attributes nested structure of Payment (model.go lines 18-70). -/
structure Attributes where
  Amount : String
  BeneficiaryParty : BeneficiaryParty
  ChargesInf : ChargesInf
  Currency : String
  DebtorParty : DebtorParty
  EndToEndReference : String
  Fx : Fx
  NumericReference : String
  PaymentID : String
  PaymentPurpose : String
  PaymentScheme : String
  PaymentType : String
  ProcessingDate : String
  Reference : String
  SchemePaymentSubType : String
  SchemePaymentType : String
  SponsorParty : SponsorParty
deriving DecidableEq, Inhabited

/-- Payment is the main payment record structure (model.go lines 13-71).
The Go field `Type` is rendered `type_` because `Type` is a Lean keyword;
the `_id` bson key is the `ID` field.  `default` is the Go zero value. -/
structure Payment where
  type_ : String
  ID : String
  Version : Int
  OrganisationID : String
  Attributes : Attributes
deriving DecidableEq, Inhabited

/-- Links is the anonymous links struct of Payments (model.go lines 76-78). -/
structure Links where
  Self : String
deriving DecidableEq, Inhabited

/-- Payments is the collection payment record structure (model.go lines 74-79). -/
structure Payments where
  P : List Payment
  Links : Links
deriving DecidableEq, Inhabited

/-- Modelled from the spec: the state of the document-store collaborator.
`coll` is the (ordered) collection of records; identifiers are not assumed
unique by the store itself.  `findOK` is true when find/count queries
succeed, `writeOK` when insert/update/remove succeed; a false flag makes
the corresponding operation fail, modelling a connection or query error. -/
structure DB where
  coll : List Payment
  findOK : Bool
  writeOK : Bool
deriving DecidableEq

/-- Modelled from the spec: store collaborator `findByID(id)`, zero/one/many
records matching the identifier, in store order. -/
def findByID (db : DB) (id : String) : Except String (List Payment) :=
  if db.findOK then .ok (db.coll.filter (fun q => q.ID == id)) else .error "store query failed"

/-- Modelled from the spec: store collaborator `countByID(id)`. -/
def countByID (db : DB) (id : String) : Except String Nat :=
  if db.findOK then .ok (db.coll.filter (fun q => q.ID == id)).length else .error "store query failed"

/-- Modelled from the spec: store collaborator `findAll()`. -/
def findAll (db : DB) : Except String (List Payment) :=
  if db.findOK then .ok db.coll else .error "store query failed"

/-- Modelled from the spec: store collaborator `insert(record)` appends the
record to the collection; fails only on a store failure. -/
def insertRec (db : DB) (p : Payment) : Except String DB :=
  if db.writeOK then .ok { db with coll := db.coll ++ [p] } else .error "store insert failed"

/-- Replace the first record whose identifier matches `id` by `p`
(the single-document update semantics of the store driver). -/
def replaceFirst : List Payment → String → Payment → List Payment
  | [], _, _ => []
  | q :: rest, id, p => if q.ID == id then p :: rest else q :: replaceFirst rest id p

/-- Remove the first record whose identifier matches `id`
(the single-document remove semantics of the store driver). -/
def removeFirst : List Payment → String → List Payment
  | [], _ => []
  | q :: rest, id => if q.ID == id then rest else q :: removeFirst rest id

/-- Modelled from the spec: store collaborator `updateByID(id, record)`,
a full replace of the stored record keyed by the identifier. -/
def updateByID (db : DB) (id : String) (p : Payment) : Except String DB :=
  if db.writeOK then .ok { db with coll := replaceFirst db.coll id p } else .error "store update failed"

/-- Modelled from the spec: store collaborator `removeByID(id)`; does not
itself fail on absence, which the lifecycle manager checks beforehand. -/
def removeByID (db : DB) (id : String) : Except String DB :=
  if db.writeOK then .ok { db with coll := removeFirst db.coll id } else .error "store remove failed"

/-- checkEmptyPaymentID ascertains whether the ID field is populated; the
only check performed is ID = "" (model.go lines 203-208). -/
def checkEmptyPaymentID (p : Payment) : Bool :=
  if p.ID = "" then true else false

/-- returnPaymentCount (model.go lines 215-222): the number of records with
the Payment's identifier; (-1, error) when the count query fails. -/
def returnPaymentCount (db : DB) (p : Payment) : Int × Option String :=
  match countByID db p.ID with
  | .error e => (-1, some e)
  | .ok n => ((n : Int), none)

/-- returnPaymentCountAndQuery (model.go lines 230-237): the count plus the
query result (the matching records) the caller can then read one record from. -/
def returnPaymentCountAndQuery (db : DB) (p : Payment) : Option (List Payment) × Int × Option String :=
  match findByID db p.ID with
  | .error e => (none, -1, some e)
  | .ok ms => (some ms, (ms.length : Int), none)

/-- modelGetPayment (model.go lines 92-111): given the identifier in the
Payment, retrieve the corresponding record; returns (count, payment, error)
with the Go zero value for payment on the error paths. -/
def modelGetPayment (db : DB) (p : Payment) : Int × Payment × Option String :=
  if checkEmptyPaymentID p then (-1, default, some "No Payment ID specified")
  else
    match returnPaymentCountAndQuery db p with
    | (_, _, some e) => (-1, default, some e)
    | (q, count, none) =>
      if count = 0 then (count, default, some "Payment not found")
      else if count > 1 then (-1, default, some "More than one payment returned per ID")
      else (count, (q.getD []).headD default, none)

/-- modelGetPayments (model.go lines 83-87): retrieve all payment records. -/
def modelGetPayments (db : DB) : Except String (List Payment) :=
  findAll db

/-- modelDeletePaymentValidCheck (model.go lines 118-132): whether a record
with this identifier can be deleted; `some reason` when it cannot. -/
def modelDeletePaymentValidCheck (db : DB) (p : Payment) : Option String :=
  if checkEmptyPaymentID p then some "Cannot delete a payment without a Payment ID specified"
  else
    match returnPaymentCount db p with
    | (_, some e) => some e
    | (count, none) =>
      if count = 0 then some "A payment with this Payment ID doesn't exists" else none

/-- modelDeletePayment (model.go lines 137-140): remove the record keyed by
the Payment's identifier. -/
def modelDeletePayment (db : DB) (p : Payment) : Except String DB :=
  removeByID db p.ID

/-- modelCreatePaymentValidCheck (model.go lines 147-161): whether a record
with this identifier can be created; `some reason` when it cannot. -/
def modelCreatePaymentValidCheck (db : DB) (p : Payment) : Option String :=
  if checkEmptyPaymentID p then some "Cannot add a payment without a Payment ID specified"
  else
    match returnPaymentCount db p with
    | (_, some e) => some e
    | (count, none) =>
      if count > 0 then some "A payment with this Payment ID already exists" else none

/-- modelCreatePayment (model.go lines 166-169): insert the full record. -/
def modelCreatePayment (db : DB) (p : Payment) : Except String DB :=
  insertRec db p

/-- modelUpdatePaymentValidCheck (model.go lines 176-190): whether a record
with this identifier can be modified; `some reason` when it cannot. -/
def modelUpdatePaymentValidCheck (db : DB) (p : Payment) : Option String :=
  if checkEmptyPaymentID p then some "Cannot update a payment without a Payment ID specified"
  else
    match returnPaymentCount db p with
    | (_, some e) => some e
    | (count, none) =>
      if count = 0 then some "A payment with this Payment ID does not exist" else none

/-- modelUpdatePayment (model.go lines 195-198): full replace of the record
keyed by the Payment's identifier. -/
def modelUpdatePayment (db : DB) (p : Payment) : Except String DB :=
  updateByID db p.ID p

/-- Modelled from the spec: the transport collaborator's decoding of a PUT
request body into a record that already has its ID field set to the path
segment.  The JSON decoder overwrites only the fields present in the body,
so the only presence bit the dispatcher's behavior depends on is whether the
body carries an `id` field: `decodeOK` is whether the body decodes at all,
`pay` is the record the body decodes to on its own (absent fields zero),
and `hasId` is whether the body contains an `id` field. -/
structure UpdateBody where
  decodeOK : Bool
  pay : Payment
  hasId : Bool
deriving DecidableEq

/-- The record held in `p` after `decoder.Decode(&p)` in updatePayment
(server.go lines 142-145): the body's fields overwrite the struct that was
initialized with the path id, so the path id survives only when the body has
no `id` field. -/
def decodeInto (pathId : String) (b : UpdateBody) : Payment :=
  if b.hasId then b.pay else { b.pay with ID := pathId }

/-- getPayments handler (server.go lines 76-89): list all payments, wrap in
Payments with the fixed self link; store failure maps to 500. -/
def getPayments (db : DB) : Nat × Except String Payments :=
  match modelGetPayments db with
  | .error e => (500, .error e)
  | .ok payment =>
    (200, .ok { P := payment, Links := { Self := "https://api.test.form3.tech/v1/payments" } })

/-- createPayment handler (server.go lines 94-115): the body decodes into a
zero record (`none` models a decode failure); a valid-check failure maps to
400, an insert failure to 500, success to 201 with the store grown.
Returns (status, error message, resulting store state). -/
def createPayment (db : DB) (body : Option Payment) : Nat × Option String × DB :=
  match body with
  | none => (400, some "Invalid payload request", db)
  | some p =>
    match modelCreatePaymentValidCheck db p with
    | some e => (400, some e, db)
    | none =>
      match modelCreatePayment db p with
      | .error e => (500, some e, db)
      | .ok dbAfter => (201, none, dbAfter)

/-- getPayment handler (server.go lines 120-135): fetch by the path id; an
error with count < 0 maps to 500, an error with count = 0 to 404, otherwise
200.  Returns (status, error message). -/
def getPayment (db : DB) (id : String) : Nat × Option String :=
  match modelGetPayment db { (default : Payment) with ID := id } with
  | (count, _, err) =>
    if err.isSome ∧ count < 0 then (500, err)
    else if err.isSome ∧ count = 0 then (404, err)
    else (200, none)

/-- updatePayment handler (server.go lines 140-163): the body is decoded into
a record pre-seeded with the path id; a valid-check failure maps to 404, an
update failure to 500, success to 200 with the record replaced wholesale.
Returns (status, error message, resulting store state). -/
def updatePayment (db : DB) (pathId : String) (b : UpdateBody) : Nat × Option String × DB :=
  if b.decodeOK = false then (400, some "Invalid request payload", db)
  else
    let p := decodeInto pathId b
    match modelUpdatePaymentValidCheck db p with
    | some e => (404, some e, db)
    | none =>
      match modelUpdatePayment db p with
      | .error e => (500, some e, db)
      | .ok dbAfter => (200, none, dbAfter)

/-- deletePayment handler (server.go lines 168-182): delete by the path id; a
valid-check failure maps to 404, a remove failure to 500, success to 200.
Returns (status, error message, resulting store state). -/
def deletePayment (db : DB) (id : String) : Nat × Option String × DB :=
  let p := { (default : Payment) with ID := id }
  match modelDeletePaymentValidCheck db p with
  | some e => (404, some e, db)
  | none =>
    match modelDeletePayment db p with
    | .error e => (500, some e, db)
    | .ok dbAfter => (200, none, dbAfter)

/-- A concrete payment used by witnesses: the test suite's create payload
(id 4ee3a8d8-ca7b-4290-a52c-dd5b6165ec43, amount "100.21"). -/
def samplePayment : Payment :=
  { type_ := "Payment"
    ID := "4ee3a8d8-ca7b-4290-a52c-dd5b6165ec43"
    Version := 0
    OrganisationID := "743d5b63-8e6f-432e-a8fa-c5d8d2ee5fcb"
    Attributes :=
      { Amount := "100.21"
        BeneficiaryParty :=
          { AccountName := "W Owens", AccountNumber := "31926819"
            AccountNumberCode := "BBAN", AccountType := 0
            Address := "1 The Beneficiary Localtown SE2", BankID := "403000"
            BankIDCode := "GBDSC", Name := "Wilfred Jeremiah Owens" }
        ChargesInf :=
          { BearerCode := "SHAR"
            SenderCharges := [{ Amount := "5.00", Currency := "GBP" },
                              { Amount := "10.00", Currency := "USD" }]
            ReceiverChargesAmount := "1.00", ReceiverChargesCurrency := "USD" }
        Currency := "GBP"
        DebtorParty :=
          { AccountName := "EJ Brown Black", AccountNumber := "GB29XABC10161234567801"
            AccountNumberCode := "IBAN", Address := "10 Debtor Crescent Sourcetown NE1"
            BankID := "203301", BankIDCode := "GBDSC", Name := "Emelia Jane Brown" }
        EndToEndReference := "Wil piano Jan"
        Fx :=
          { ContractReference := "FX123", ExchangeRate := "2.00000"
            OriginalAmount := "200.42", OriginalCurrency := "USD" }
        NumericReference := "1002001", PaymentID := "123456789012345678"
        PaymentPurpose := "Paying for goods/services", PaymentScheme := "FPS"
        PaymentType := "Credit", ProcessingDate := "2017-01-18"
        Reference := "Payment for Em's piano lessons"
        SchemePaymentSubType := "InternetBanking"
        SchemePaymentType := "ImmediatePayment"
        SponsorParty :=
          { AccountNumber := "56781234", BankID := "123123", BankIDCode := "GBDSC" } } }

/-- The update payload of the test suite: samplePayment with amount "121.00"
and debtor name "EJ Brown Blue". -/
def samplePayment2 : Payment :=
  { samplePayment with
    Attributes :=
      { samplePayment.Attributes with
        Amount := "121.00"
        DebtorParty := { samplePayment.Attributes.DebtorParty with AccountName := "EJ Brown Blue" } } }

/-! Helper lemmas shared by the claim theorems. -/

theorem checkEmptyPaymentID_false (p : Payment) (h : p.ID ≠ "") :
    checkEmptyPaymentID p = false := by
  simp [checkEmptyPaymentID, h]

theorem returnPaymentCount_ok (db : DB) (p : Payment) (hf : db.findOK = true) :
    returnPaymentCount db p =
      (((db.coll.filter (fun q => q.ID == p.ID)).length : Int), none) := by
  simp [returnPaymentCount, countByID, hf]

theorem returnPaymentCountAndQuery_ok (db : DB) (p : Payment) (hf : db.findOK = true) :
    returnPaymentCountAndQuery db p =
      (some (db.coll.filter (fun q => q.ID == p.ID)),
       ((db.coll.filter (fun q => q.ID == p.ID)).length : Int), none) := by
  simp [returnPaymentCountAndQuery, findByID, hf]

theorem filter_append_fresh (l : List Payment) (p : Payment) (id : String)
    (hp : p.ID = id) (h : l.filter (fun q => q.ID == id) = []) :
    (l ++ [p]).filter (fun q => q.ID == id) = [p] := by
  simp [List.filter_append, h, hp]

theorem filter_replaceFirst (id : String) (p r : Payment) (hp : p.ID = id) :
    ∀ l : List Payment, l.filter (fun q => q.ID == id) = [r] →
      (replaceFirst l id p).filter (fun q => q.ID == id) = [p]
  | [], h => by simp at h
  | a :: rest, h => by
    by_cases ha : a.ID = id
    · rw [List.filter_cons, if_pos (by simpa using ha)] at h
      rw [List.cons_eq_cons] at h
      simp [replaceFirst, ha, List.filter_cons, hp, h.2]
    · rw [List.filter_cons, if_neg (by simpa using ha)] at h
      simp [replaceFirst, ha, List.filter_cons,
            filter_replaceFirst id p r hp rest h]

theorem filter_removeFirst (id : String) (r : Payment) :
    ∀ l : List Payment, l.filter (fun q => q.ID == id) = [r] →
      (removeFirst l id).filter (fun q => q.ID == id) = []
  | [], h => by simp at h
  | a :: rest, h => by
    by_cases ha : a.ID = id
    · rw [List.filter_cons, if_pos (by simpa using ha)] at h
      rw [List.cons_eq_cons] at h
      simp [removeFirst, ha, h.2]
    · rw [List.filter_cons, if_neg (by simpa using ha)] at h
      simp [removeFirst, ha, List.filter_cons,
            filter_removeFirst id r rest h]

theorem modelGetPayment_single (db : DB) (p r : Payment) (hid : p.ID ≠ "")
    (hf : db.findOK = true) (h : db.coll.filter (fun q => q.ID == p.ID) = [r]) :
    modelGetPayment db p = (1, r, none) := by
  simp [modelGetPayment, checkEmptyPaymentID_false p hid,
        returnPaymentCountAndQuery_ok db p hf, h]

theorem modelGetPayment_notFound (db : DB) (p : Payment) (hid : p.ID ≠ "")
    (hf : db.findOK = true) (h : db.coll.filter (fun q => q.ID == p.ID) = []) :
    modelGetPayment db p = (0, default, some "Payment not found") := by
  simp [modelGetPayment, checkEmptyPaymentID_false p hid,
        returnPaymentCountAndQuery_ok db p hf, h]

theorem modelGetPayment_many (db : DB) (p : Payment) (hid : p.ID ≠ "")
    (hf : db.findOK = true) (h : 1 < (db.coll.filter (fun q => q.ID == p.ID)).length) :
    modelGetPayment db p = (-1, default, some "More than one payment returned per ID") := by
  have h2 : (1 : Int) < ((db.coll.filter (fun q => q.ID == p.ID)).length : Int) := by
    exact_mod_cast h
  have h1 : ¬ (((db.coll.filter (fun q => q.ID == p.ID)).length : Int) = 0) := by omega
  simp [modelGetPayment, checkEmptyPaymentID_false p hid,
        returnPaymentCountAndQuery_ok db p hf, h1, h2]

/-! The claim theorems. -/

/-- C1: for every payment P with a non-empty identifier and a store holding no
record with that identifier (and a healthy store), create(P) succeeds — the
valid check passes, the insert appends P verbatim — and a subsequent
get(P.ID) succeeds and returns a record deep-equal to P in every field,
the nested Attributes structure and its arrays included. -/
theorem create_then_get_roundtrip (db : DB) (P : Payment)
    (hid : P.ID ≠ "") (hf : db.findOK = true) (hw : db.writeOK = true)
    (hfresh : db.coll.filter (fun q => q.ID == P.ID) = []) :
    modelCreatePaymentValidCheck db P = none ∧
    modelCreatePayment db P = .ok { db with coll := db.coll ++ [P] } ∧
    createPayment db (some P) = (201, none, { db with coll := db.coll ++ [P] }) ∧
    modelGetPayment { db with coll := db.coll ++ [P] }
      { (default : Payment) with ID := P.ID } = (1, P, none) := by
  have hvc : modelCreatePaymentValidCheck db P = none := by
    simp [modelCreatePaymentValidCheck, checkEmptyPaymentID_false P hid,
          returnPaymentCount_ok db P hf, hfresh]
  have hins : modelCreatePayment db P = .ok { db with coll := db.coll ++ [P] } := by
    simp [modelCreatePayment, insertRec, hw]
  refine ⟨hvc, hins, ?_, ?_⟩
  · simp [createPayment, hvc, hins]
  · exact modelGetPayment_single _ _ P hid hf (filter_append_fresh db.coll P P.ID rfl hfresh)

/-- C1 witness: the round trip at the test suite's payload on an empty store. -/
theorem create_then_get_roundtrip_witness :
    modelCreatePaymentValidCheck (DB.mk [] true true) samplePayment = none ∧
    modelCreatePayment (DB.mk [] true true) samplePayment = .ok (DB.mk [samplePayment] true true) ∧
    createPayment (DB.mk [] true true) (some samplePayment) = (201, none, DB.mk [samplePayment] true true) ∧
    modelGetPayment (DB.mk [samplePayment] true true)
      { (default : Payment) with ID := samplePayment.ID } = (1, samplePayment, none) := by
  exact create_then_get_roundtrip (DB.mk [] true true) samplePayment (by decide) rfl rfl (by decide)

/-- C2: for every payment P with a non-empty identifier whose identifier is
already present in the store (count > 0), create(P) fails with the
already-exists error, mapped to 400, and the store state is returned
unchanged. -/
theorem create_duplicate_alreadyExists (db : DB) (P : Payment)
    (hid : P.ID ≠ "") (hf : db.findOK = true)
    (hdup : 0 < (db.coll.filter (fun q => q.ID == P.ID)).length) :
    modelCreatePaymentValidCheck db P = some "A payment with this Payment ID already exists" ∧
    createPayment db (some P) = (400, some "A payment with this Payment ID already exists", db) := by
  have hpos : (0 : Int) < ((db.coll.filter (fun q => q.ID == P.ID)).length : Int) := by
    exact_mod_cast hdup
  have hvc : modelCreatePaymentValidCheck db P =
      some "A payment with this Payment ID already exists" := by
    simp [modelCreatePaymentValidCheck, checkEmptyPaymentID_false P hid,
          returnPaymentCount_ok db P hf, hpos]
  exact ⟨hvc, by simp [createPayment, hvc]⟩

/-- C2 witness: the duplicate create at the test suite's payload. -/
theorem create_duplicate_alreadyExists_witness :
    modelCreatePaymentValidCheck (DB.mk [samplePayment] true true) samplePayment =
      some "A payment with this Payment ID already exists" ∧
    createPayment (DB.mk [samplePayment] true true) (some samplePayment) =
      (400, some "A payment with this Payment ID already exists", DB.mk [samplePayment] true true) := by
  exact create_duplicate_alreadyExists (DB.mk [samplePayment] true true) samplePayment
    (by decide) rfl (by decide)

/-- C3: for every payment Pnew with a non-empty identifier for which the store
holds exactly one record r (of arbitrary content), update(Pnew) passes the
valid check and replaces the stored record wholesale, so a subsequent get of
that identifier returns exactly Pnew in every field, nothing retained from r. -/
theorem update_replaces_wholesale (db : DB) (Pnew r : Payment)
    (hid : Pnew.ID ≠ "") (hf : db.findOK = true) (hw : db.writeOK = true)
    (hone : db.coll.filter (fun q => q.ID == Pnew.ID) = [r]) :
    modelUpdatePaymentValidCheck db Pnew = none ∧
    modelUpdatePayment db Pnew = .ok { db with coll := replaceFirst db.coll Pnew.ID Pnew } ∧
    modelGetPayment { db with coll := replaceFirst db.coll Pnew.ID Pnew }
      { (default : Payment) with ID := Pnew.ID } = (1, Pnew, none) := by
  have hvc : modelUpdatePaymentValidCheck db Pnew = none := by
    simp [modelUpdatePaymentValidCheck, checkEmptyPaymentID_false Pnew hid,
          returnPaymentCount_ok db Pnew hf, hone]
  have hupd : modelUpdatePayment db Pnew =
      .ok { db with coll := replaceFirst db.coll Pnew.ID Pnew } := by
    simp [modelUpdatePayment, updateByID, hw]
  refine ⟨hvc, hupd, ?_⟩
  exact modelGetPayment_single _ _ Pnew hid hf
    (filter_replaceFirst Pnew.ID Pnew r rfl db.coll hone)

/-- C3 witness: the test suite's scenario — update the stored create payload
(amount "100.21") to the modified payload (amount "121.00"); get returns the
modified payload exactly. -/
theorem update_replaces_wholesale_witness :
    modelUpdatePaymentValidCheck (DB.mk [samplePayment] true true) samplePayment2 = none ∧
    modelUpdatePayment (DB.mk [samplePayment] true true) samplePayment2 =
      .ok (DB.mk (replaceFirst [samplePayment] samplePayment2.ID samplePayment2) true true) ∧
    modelGetPayment (DB.mk (replaceFirst [samplePayment] samplePayment2.ID samplePayment2) true true)
      { (default : Payment) with ID := samplePayment2.ID } = (1, samplePayment2, none) := by
  exact update_replaces_wholesale (DB.mk [samplePayment] true true) samplePayment2 samplePayment
    (by decide) rfl rfl (by decide)

/-- C4 counterexample: GET /payment/{id} with an empty identifier is mapped to
status 500 (through the err-and-count-negative branch), not 404 as claimed. -/
theorem getPayment_emptyID_maps_to_500 :
    getPayment (DB.mk [] true true) "" = (500, some "No Payment ID specified") ∧
    (500 : Nat) ≠ 404 := by
  exact ⟨by decide, by decide⟩

/-- C4 (amended): for the get operation dispatched from GET /payment/{id}, an
empty identifier is mapped to status 500 — the same status as a uniqueness
violation (more than one match) or a store error — while zero matches for a
non-empty identifier map to 404. -/
theorem getPayment_status_mapping (db : DB) (id : String) :
    (id = "" → getPayment db id = (500, some "No Payment ID specified")) ∧
    (db.findOK = false → id ≠ "" → getPayment db id = (500, some "store query failed")) ∧
    (db.findOK = true → id ≠ "" → db.coll.filter (fun q => q.ID == id) = [] →
      getPayment db id = (404, some "Payment not found")) ∧
    (db.findOK = true → id ≠ "" → 1 < (db.coll.filter (fun q => q.ID == id)).length →
      getPayment db id = (500, some "More than one payment returned per ID")) := by
  refine ⟨?_, ?_, ?_, ?_⟩
  · intro h
    subst h
    simp [getPayment, modelGetPayment, checkEmptyPaymentID]
  · intro hf hid
    simp [getPayment, modelGetPayment, checkEmptyPaymentID, hid,
          returnPaymentCountAndQuery, findByID, hf]
  · intro hf hid h
    have := modelGetPayment_notFound db { (default : Payment) with ID := id } hid hf h
    simp [getPayment, this]
  · intro hf hid h
    have := modelGetPayment_many db { (default : Payment) with ID := id } hid hf h
    simp [getPayment, this]

/-- C4 (amended) witness: the four branches at concrete stores — empty id,
store failure, not found, and a duplicated identifier. -/
theorem getPayment_status_mapping_witness :
    getPayment (DB.mk [] true true) "" = (500, some "No Payment ID specified") ∧
    getPayment (DB.mk [] false true) "11" = (500, some "store query failed") ∧
    getPayment (DB.mk [] true true) "11" = (404, some "Payment not found") ∧
    getPayment (DB.mk [samplePayment, samplePayment] true true) samplePayment.ID =
      (500, some "More than one payment returned per ID") := by
  refine ⟨(getPayment_status_mapping (DB.mk [] true true) "").1 rfl,
          (getPayment_status_mapping (DB.mk [] false true) "11").2.1 rfl (by decide),
          (getPayment_status_mapping (DB.mk [] true true) "11").2.2.1 rfl (by decide) (by decide),
          (getPayment_status_mapping (DB.mk [samplePayment, samplePayment] true true)
            samplePayment.ID).2.2.2 rfl (by decide) (by decide)⟩

/-- C5 counterexample: a store failure during the existence count query of
POST /payment is mapped to status 400 (the valid-check error branch), not 500
as claimed for every store failure. -/
theorem createPayment_countError_maps_to_400 :
    createPayment (DB.mk [] false true) (some samplePayment) =
      (400, some "store query failed", DB.mk [] false true) ∧
    (400 : Nat) ≠ 500 := by
  exact ⟨by decide, by decide⟩

/-- C5 (amended): for the create operation dispatched from POST /payment, a
decode failure, an empty identifier, an already-existing identifier, and a
store failure during the existence count query are all mapped to status 400;
only a store failure during the insert itself is mapped to status 500. -/
theorem createPayment_status_mapping (db : DB) (P : Payment) :
    (createPayment db none).1 = 400 ∧
    (P.ID = "" → createPayment db (some P) =
      (400, some "Cannot add a payment without a Payment ID specified", db)) ∧
    (P.ID ≠ "" → db.findOK = false → createPayment db (some P) =
      (400, some "store query failed", db)) ∧
    (P.ID ≠ "" → db.findOK = true → 0 < (db.coll.filter (fun q => q.ID == P.ID)).length →
      createPayment db (some P) =
        (400, some "A payment with this Payment ID already exists", db)) ∧
    (P.ID ≠ "" → db.findOK = true → db.writeOK = false →
      db.coll.filter (fun q => q.ID == P.ID) = [] →
      createPayment db (some P) = (500, some "store insert failed", db)) := by
  refine ⟨by simp [createPayment], ?_, ?_, ?_, ?_⟩
  · intro h
    simp [createPayment, modelCreatePaymentValidCheck, checkEmptyPaymentID, h]
  · intro hid hf
    simp [createPayment, modelCreatePaymentValidCheck, checkEmptyPaymentID_false P hid,
          returnPaymentCount, countByID, hf]
  · intro hid hf hdup
    have hpos : (0 : Int) < ((db.coll.filter (fun q => q.ID == P.ID)).length : Int) := by
      exact_mod_cast hdup
    simp [createPayment, modelCreatePaymentValidCheck, checkEmptyPaymentID_false P hid,
          returnPaymentCount_ok db P hf, hpos]
  · intro hid hf hw hfresh
    have hvc : modelCreatePaymentValidCheck db P = none := by
      simp [modelCreatePaymentValidCheck, checkEmptyPaymentID_false P hid,
            returnPaymentCount_ok db P hf, hfresh]
    simp [createPayment, hvc, modelCreatePayment, insertRec, hw]

/-- C5 (amended) witness: the five branches at concrete stores. -/
theorem createPayment_status_mapping_witness :
    (createPayment (DB.mk [] true true) none).1 = 400 ∧
    createPayment (DB.mk [] true true) (some { (default : Payment) with ID := "" }) =
      (400, some "Cannot add a payment without a Payment ID specified", DB.mk [] true true) ∧
    createPayment (DB.mk [] false true) (some samplePayment) =
      (400, some "store query failed", DB.mk [] false true) ∧
    createPayment (DB.mk [samplePayment] true true) (some samplePayment) =
      (400, some "A payment with this Payment ID already exists", DB.mk [samplePayment] true true) ∧
    createPayment (DB.mk [] true false) (some samplePayment) =
      (500, some "store insert failed", DB.mk [] true false) := by
  refine ⟨(createPayment_status_mapping (DB.mk [] true true)
            { (default : Payment) with ID := "" }).1,
          (createPayment_status_mapping (DB.mk [] true true)
            { (default : Payment) with ID := "" }).2.1 rfl,
          (createPayment_status_mapping (DB.mk [] false true) samplePayment).2.2.1
            (by decide) rfl,
          (createPayment_status_mapping (DB.mk [samplePayment] true true) samplePayment).2.2.2.1
            (by decide) rfl (by decide),
          (createPayment_status_mapping (DB.mk [] true false) samplePayment).2.2.2.2
            (by decide) rfl rfl (by decide)⟩

/-- C6: for every non-empty identifier id (and a store answering queries),
get(id) fails with "Payment not found" exactly in the zero-match case, fails
with "More than one payment returned per ID" exactly in the more-than-one
case, and in the single-match case succeeds returning that single record;
the three cases are exhaustive and produce pairwise distinct outcomes. -/
theorem modelGetPayment_taxonomy (db : DB) (id : String)
    (hid : id ≠ "") (hf : db.findOK = true) :
    (db.coll.filter (fun q => q.ID == id) = [] →
      modelGetPayment db { (default : Payment) with ID := id } =
        (0, default, some "Payment not found")) ∧
    (1 < (db.coll.filter (fun q => q.ID == id)).length →
      modelGetPayment db { (default : Payment) with ID := id } =
        (-1, default, some "More than one payment returned per ID")) ∧
    (∀ r, db.coll.filter (fun q => q.ID == id) = [r] →
      modelGetPayment db { (default : Payment) with ID := id } = (1, r, none)) := by
  refine ⟨?_, ?_, ?_⟩
  · intro h
    exact modelGetPayment_notFound db { (default : Payment) with ID := id } hid hf h
  · intro h
    exact modelGetPayment_many db { (default : Payment) with ID := id } hid hf h
  · intro r h
    exact modelGetPayment_single db { (default : Payment) with ID := id } r hid hf h

/-- C6 witness: the three branches at concrete stores. -/
theorem modelGetPayment_taxonomy_witness :
    modelGetPayment (DB.mk [] true true) { (default : Payment) with ID := "11" } =
      (0, default, some "Payment not found") ∧
    modelGetPayment (DB.mk [samplePayment, samplePayment] true true)
      { (default : Payment) with ID := samplePayment.ID } =
      (-1, default, some "More than one payment returned per ID") ∧
    modelGetPayment (DB.mk [samplePayment] true true)
      { (default : Payment) with ID := samplePayment.ID } = (1, samplePayment, none) := by
  refine ⟨(modelGetPayment_taxonomy (DB.mk [] true true) "11" (by decide) rfl).1 (by decide),
          (modelGetPayment_taxonomy (DB.mk [samplePayment, samplePayment] true true)
            samplePayment.ID (by decide) rfl).2.1 (by decide),
          (modelGetPayment_taxonomy (DB.mk [samplePayment] true true)
            samplePayment.ID (by decide) rfl).2.2 samplePayment (by decide)⟩

/-- C7: for every non-empty identifier id held by exactly one stored record r
(and a healthy store), delete(id) succeeds with 200 and removes the record;
a subsequent get(id) fails with 404 "Payment not found"; and a second
delete(id) fails with 404 "A payment with this Payment ID doesn't exists",
leaving the store unchanged — removal is observed by absence, the call
itself is not idempotent. -/
theorem delete_then_get_notFound (db : DB) (id : String) (r : Payment)
    (hid : id ≠ "") (hf : db.findOK = true) (hw : db.writeOK = true)
    (hone : db.coll.filter (fun q => q.ID == id) = [r]) :
    deletePayment db id = (200, none, { db with coll := removeFirst db.coll id }) ∧
    getPayment { db with coll := removeFirst db.coll id } id = (404, some "Payment not found") ∧
    deletePayment { db with coll := removeFirst db.coll id } id =
      (404, some "A payment with this Payment ID doesn't exists",
       { db with coll := removeFirst db.coll id }) := by
  have hgone : (removeFirst db.coll id).filter (fun q => q.ID == id) = [] :=
    filter_removeFirst id r db.coll hone
  have hvc1 : modelDeletePaymentValidCheck db { (default : Payment) with ID := id } = none := by
    simp [modelDeletePaymentValidCheck,
          checkEmptyPaymentID_false { (default : Payment) with ID := id } hid,
          returnPaymentCount_ok db { (default : Payment) with ID := id } hf, hone]
  have hvc2 : modelDeletePaymentValidCheck { db with coll := removeFirst db.coll id }
      { (default : Payment) with ID := id } =
      some "A payment with this Payment ID doesn't exists" := by
    simp [modelDeletePaymentValidCheck,
          checkEmptyPaymentID_false { (default : Payment) with ID := id } hid,
          returnPaymentCount_ok { db with coll := removeFirst db.coll id }
            { (default : Payment) with ID := id } hf, hgone]
  refine ⟨?_, ?_, ?_⟩
  · simp [deletePayment, hvc1, modelDeletePayment, removeByID, hw]
  · have := modelGetPayment_notFound { db with coll := removeFirst db.coll id }
      { (default : Payment) with ID := id } hid hf hgone
    simp [getPayment, this]
  · simp [deletePayment, hvc2]

/-- C7 witness: delete, get, delete again at the test suite's payload. -/
theorem delete_then_get_notFound_witness :
    deletePayment (DB.mk [samplePayment] true true) samplePayment.ID =
      (200, none, DB.mk (removeFirst [samplePayment] samplePayment.ID) true true) ∧
    getPayment (DB.mk (removeFirst [samplePayment] samplePayment.ID) true true) samplePayment.ID =
      (404, some "Payment not found") ∧
    deletePayment (DB.mk (removeFirst [samplePayment] samplePayment.ID) true true) samplePayment.ID =
      (404, some "A payment with this Payment ID doesn't exists",
       DB.mk (removeFirst [samplePayment] samplePayment.ID) true true) := by
  exact delete_then_get_notFound (DB.mk [samplePayment] true true) samplePayment.ID
    samplePayment (by decide) rfl rfl (by decide)

/-- C8: list() on a store answering queries returns status 200 and a
PaymentCollection whose data field is exactly the store's record sequence —
the empty sequence on an empty store — and whose link field is the fixed
constant "https://api.test.form3.tech/v1/payments", for every store state. -/
theorem getPayments_link_constant (db : DB) (hf : db.findOK = true) :
    getPayments db =
      (200, .ok { P := db.coll,
                  Links := { Self := "https://api.test.form3.tech/v1/payments" } }) := by
  simp [getPayments, modelGetPayments, findAll, hf]

/-- C8 witness: list() on the empty store yields empty data and the constant
link. -/
theorem getPayments_link_constant_witness :
    getPayments (DB.mk [] true true) =
      (200, .ok { P := [],
                  Links := { Self := "https://api.test.form3.tech/v1/payments" } }) := by
  exact getPayments_link_constant (DB.mk [] true true) rfl

/-- C9: every operation among get, create, update and delete given an empty
identifier fails with its validation error and returns the store unchanged,
and the whole outcome is a constant independent of the store state — it is
the same even for a store whose every query and write would fail — so no
store operation is consulted before the failure. -/
theorem emptyID_no_store_effect (db : DB) (P : Payment) (pathId : String) (b : UpdateBody)
    (hP : P.ID = "") (hb : b.decodeOK = true) (hbid : (decodeInto pathId b).ID = "") :
    modelGetPayment db P = (-1, default, some "No Payment ID specified") ∧
    getPayment db "" = (500, some "No Payment ID specified") ∧
    createPayment db (some P) =
      (400, some "Cannot add a payment without a Payment ID specified", db) ∧
    updatePayment db pathId b =
      (404, some "Cannot update a payment without a Payment ID specified", db) ∧
    deletePayment db "" =
      (404, some "Cannot delete a payment without a Payment ID specified", db) := by
  refine ⟨?_, ?_, ?_, ?_, ?_⟩
  · simp [modelGetPayment, checkEmptyPaymentID, hP]
  · simp [getPayment, modelGetPayment, checkEmptyPaymentID]
  · simp [createPayment, modelCreatePaymentValidCheck, checkEmptyPaymentID, hP]
  · simp [updatePayment, hb, modelUpdatePaymentValidCheck, checkEmptyPaymentID, hbid]
  · simp [deletePayment, modelDeletePaymentValidCheck, checkEmptyPaymentID]

/-- C9 witness: the constants at a store whose every query and write fails,
holding one record — the store is returned untouched. -/
theorem emptyID_no_store_effect_witness :
    modelGetPayment (DB.mk [samplePayment] false false) { (default : Payment) with ID := "" } =
      (-1, default, some "No Payment ID specified") ∧
    getPayment (DB.mk [samplePayment] false false) "" = (500, some "No Payment ID specified") ∧
    createPayment (DB.mk [samplePayment] false false)
      (some { (default : Payment) with ID := "" }) =
      (400, some "Cannot add a payment without a Payment ID specified",
       DB.mk [samplePayment] false false) ∧
    updatePayment (DB.mk [samplePayment] false false) "11" (UpdateBody.mk true default true) =
      (404, some "Cannot update a payment without a Payment ID specified",
       DB.mk [samplePayment] false false) ∧
    deletePayment (DB.mk [samplePayment] false false) "" =
      (404, some "Cannot delete a payment without a Payment ID specified",
       DB.mk [samplePayment] false false) := by
  exact emptyID_no_store_effect (DB.mk [samplePayment] false false)
    { (default : Payment) with ID := "" } "11" (UpdateBody.mk true default true)
    rfl rfl (by decide)

/-- C10: for PUT /payment/{id}, when the decoded body contains an identifier
field, that identifier overrides the path segment: the handler's outcome is
independent of the path id; a body with an empty identifier fails validation
even for a non-empty path; and when the store holds exactly one record under
the body's identifier, the existence check and the wholesale replacement are
keyed by the body's identifier, whatever the path says. -/
theorem update_bodyID_overrides_path (db : DB) (b : UpdateBody)
    (hdec : b.decodeOK = true) (hasid : b.hasId = true) :
    (∀ pid pid', updatePayment db pid b = updatePayment db pid' b) ∧
    (b.pay.ID = "" → ∀ pid, updatePayment db pid b =
      (404, some "Cannot update a payment without a Payment ID specified", db)) ∧
    (∀ pid r, b.pay.ID ≠ "" → db.findOK = true → db.writeOK = true →
      db.coll.filter (fun q => q.ID == b.pay.ID) = [r] →
      updatePayment db pid b =
        (200, none, { db with coll := replaceFirst db.coll b.pay.ID b.pay })) := by
  refine ⟨?_, ?_, ?_⟩
  · intro pid pid'
    simp [updatePayment, decodeInto, hasid]
  · intro h pid
    simp [updatePayment, hdec, decodeInto, hasid, modelUpdatePaymentValidCheck,
          checkEmptyPaymentID, h]
  · intro pid r hid hf hw hone
    have hvc : modelUpdatePaymentValidCheck db b.pay = none := by
      simp [modelUpdatePaymentValidCheck, checkEmptyPaymentID_false _ hid,
            returnPaymentCount_ok db _ hf, hone]
    simp [updatePayment, hdec, decodeInto, hasid, hvc, modelUpdatePayment, updateByID, hw]

/-- C10 witness: a body carrying the test payload's identifier updates that
record while the path segment says "123", and a body with an empty identifier
is rejected despite the non-empty path. -/
theorem update_bodyID_overrides_path_witness :
    updatePayment (DB.mk [samplePayment] true true) "123"
      (UpdateBody.mk true samplePayment2 true) =
      (200, none,
       DB.mk (replaceFirst [samplePayment] samplePayment2.ID samplePayment2) true true) ∧
    updatePayment (DB.mk [samplePayment] true true) "123"
      (UpdateBody.mk true { (default : Payment) with ID := "" } true) =
      (404, some "Cannot update a payment without a Payment ID specified",
       DB.mk [samplePayment] true true) := by
  refine ⟨(update_bodyID_overrides_path (DB.mk [samplePayment] true true)
            (UpdateBody.mk true samplePayment2 true) rfl rfl).2.2 "123" samplePayment
            (by decide) rfl rfl (by decide),
          (update_bodyID_overrides_path (DB.mk [samplePayment] true true)
            (UpdateBody.mk true { (default : Payment) with ID := "" } true) rfl rfl).2.1
            rfl "123"⟩

end PaymentServer
